import Mathlib

/-!
Shallow embedding of the violation-detection core of the video-proctoring
system (src/frontend/js/detection.js), together with proofs settling the
frozen claims about it.

Conventions of the embedding:
* JavaScript numbers are modelled as `ℚ` (scores, coordinates) or `Nat`
  (counters, millisecond timestamps).  `Date.now()` values are passed in
  as explicit `Nat` parameters.
* A JavaScript field that may be `undefined` is an `Option`; a comparison
  `undefined >= x` is `false`, matching JS semantics.
* `Math.round` is `jsRound` (floor of `q + 1/2`), `Math.floor` on a
  nonnegative integer quotient is `Nat` division.
* A thrown `TypeError` that is swallowed by a `try/catch` is modelled with
  `Option`/an explicit guard; the catch-handler's value is the default.
* Violations are recorded as (type, severity) pairs; the human-readable
  message strings and the statistics counters of the source are elided,
  as no claim depends on them.
-/

/-
`Rat.add`, `Rat.mul`, `Rat.sub` and `Rat.inv` are shipped `@[irreducible]`;
the concrete evaluations below need them to reduce.
-/
attribute [local semireducible] Rat.add Rat.mul Rat.sub Rat.inv

/-- JavaScript `toLowerCase()` (structurally recursive so that concrete
strings evaluate). -/
def strLower (s : String) : String := ⟨s.data.map Char.toLower⟩

/-- JavaScript `String.prototype.includes` helper: does `needle` occur as a
contiguous substring starting at the head of `hay`? -/
def subAt : List Char → List Char → Bool
  | [], _ => true
  | _ :: _, [] => false
  | a :: as, b :: bs => a == b && subAt as bs

/-- Does `needle` occur as a contiguous substring anywhere in `hay`? -/
def hasSub (needle : List Char) : List Char → Bool
  | [] => subAt needle []
  | b :: bs => subAt needle (b :: bs) || hasSub needle bs

/-- JavaScript `s.includes(sub)`. -/
def strIncludes (s sub : String) : Bool :=
  hasSub sub.toList s.toList

/-- JavaScript `Math.round` on a rational (round half up). -/
def jsRound (q : ℚ) : ℤ := (q + 1/2).floor

/-- Violation severity, the `'low' | 'medium' | 'high'` strings of the source. -/
inductive Sev where
  | low
  | medium
  | high
  deriving Repr, DecidableEq

/-- A violation event as produced by `triggerViolation`, reduced to the
(type, severity) pair that the claims are about. -/
structure Violation where
  vtype : String
  severity : Sev
  deriving Repr, DecidableEq

/-- A bounding box `[x, y, width, height]` as produced by COCO-SSD. -/
structure BBox where
  x : ℚ
  y : ℚ
  w : ℚ
  h : ℚ
  deriving Repr, DecidableEq

/-- A raw object-detection record.  Each field may be missing
(`undefined`), which is how malformed records are modelled. -/
structure DetRec where
  cls : Option String
  score : Option ℚ
  bbox : Option BBox
  deriving Repr, DecidableEq

/-- `x >= c` for a possibly-undefined JS number `x`: `undefined >= c` is false. -/
def optGe (x : Option ℚ) (c : ℚ) : Bool :=
  match x with
  | some v => c ≤ v
  | none => false

/-- `x < c` for a possibly-undefined JS number `x`: `undefined < c` is false. -/
def optLt (x : Option ℚ) (c : ℚ) : Bool :=
  match x with
  | some v => v < c
  | none => false

/-! ## Per-Type Hysteresis Tracker (`objectTracker`) -/

/-- State record kept in `objectTracker.trackedObjects` for one object type. -/
structure ObjectTrackState where
  consecutiveDetections : Nat
  missedFrames : Nat
  lastDetectionTime : Option Nat
  confidence : ℚ
  deriving Repr, DecidableEq

/-- `objectTracker.thresholds`: the three confidence tiers. -/
structure TrackerTiers where
  high : ℚ
  medium : ℚ
  low : ℚ
  deriving Repr, DecidableEq

/-- `this.objectTracker.thresholds = { high: 0.8, medium: 0.5, low: 0.2 }`. -/
def objectTrackerTiers : TrackerTiers := ⟨4/5, 1/2, 1/5⟩

/-- The whole `objectTracker` object: per-type state plus the per-type
grace-period and violation-threshold tables (JS objects, modelled as
association lists with first-match lookup so that assignment = prepend). -/
structure ObjectTracker where
  trackedObjects : List (String × ObjectTrackState)
  gracePeriod : List (String × Nat)
  violationThresholds : List (String × Nat)
  deriving Repr, DecidableEq

/-- Lookup in a per-type numeric table with JS `table[ty] || dflt`
semantics: an absent key, and a stored 0 (falsy), both fall back. -/
def lookupNum (table : List (String × Nat)) (ty : String) (dflt : Nat) : Nat :=
  match table.find? (fun p => p.1 == ty) with
  | some p => if p.2 = 0 then dflt else p.2
  | none => dflt

/-- `this.objectTracker.gracePeriod[objectType] || this.objectTracker.gracePeriod.default`. -/
def gracePeriodFor (tr : ObjectTracker) (ty : String) : Nat :=
  lookupNum tr.gracePeriod ty (lookupNum tr.gracePeriod "default" 0)

/-- `this.objectTracker.violationThresholds[objectType] || ...default`. -/
def violationThresholdFor (tr : ObjectTracker) (ty : String) : Nat :=
  lookupNum tr.violationThresholds ty (lookupNum tr.violationThresholds "default" 0)

/-- A fresh per-type state, as created by `initializeObjectTracking` and
`registerObjectType`. -/
def freshTrackState : ObjectTrackState :=
  { consecutiveDetections := 0, missedFrames := 0, lastDetectionTime := none, confidence := 0 }

/-- The tracker as built by the constructor plus `initializeObjectTracking`:
types `mobile` and `book` registered, grace periods mobile 3 / book 4 /
default 2, violation thresholds mobile 3 / book 4 / default 3. -/
def initialObjectTracker : ObjectTracker :=
  { trackedObjects := [("mobile", freshTrackState), ("book", freshTrackState)]
    gracePeriod := [("mobile", 3), ("book", 4), ("default", 2)]
    violationThresholds := [("mobile", 3), ("book", 4), ("default", 3)] }

/-- `getSearchTermsForObjectType`. -/
def getSearchTermsForObjectType (objectType : String) : List String :=
  match objectType with
  | "mobile" => ["cell phone", "mobile phone", "phone", "smartphone"]
  | "book" => ["book", "notebook", "paper", "magazine", "journal", "textbook"]
  | "remote" => ["remote", "tv remote"]
  | "cup" => ["cup", "mug", "bottle"]
  | _ => [objectType]

/-- `findObjectInPredictions`: first prediction whose lower-cased class name
matches a search term by substring in either direction.  (Reached only on
records whose `class` is present; the `getD ""` mirrors that no missing
class survives to this point.) -/
def findObjectInPredictions (predictions : List DetRec) (objectType : String) : Option DetRec :=
  let searchTerms := getSearchTermsForObjectType objectType
  predictions.find? (fun prediction =>
    let className := strLower (prediction.cls.getD "")
    searchTerms.any (fun term => strIncludes className term || strIncludes term className))

/-- `handleObjectDetected` (detection.js:1856-1888).  High (≥0.8) and medium
(≥0.5) confidence increment the consecutive count and zero the misses; low
(≥0.2) only zeroes the misses; below 0.2 every branch's comparison is false
and the state is untouched.  An `undefined` score fails every comparison. -/
def handleObjectDetected (st : ObjectTrackState) (confidence : Option ℚ) (currentTime : Nat) :
    ObjectTrackState :=
  match confidence with
  | none => st
  | some c =>
    if objectTrackerTiers.high ≤ c then
      { st with consecutiveDetections := st.consecutiveDetections + 1, missedFrames := 0,
                confidence := c, lastDetectionTime := some currentTime }
    else if objectTrackerTiers.medium ≤ c then
      { st with consecutiveDetections := st.consecutiveDetections + 1, missedFrames := 0,
                confidence := c, lastDetectionTime := some currentTime }
    else if objectTrackerTiers.low ≤ c then
      { st with missedFrames := 0, confidence := c, lastDetectionTime := some currentTime }
    else
      st

/-- `handleObjectMissed` (detection.js:1893-1913): increment `missedFrames`;
once it exceeds the grace period, reset count and confidence. -/
def handleObjectMissed (st : ObjectTrackState) (gracePeriod : Nat) : ObjectTrackState :=
  let st1 := { st with missedFrames := st.missedFrames + 1 }
  if gracePeriod < st1.missedFrames then
    { st1 with consecutiveDetections := 0, confidence := 0 }
  else
    st1

/-- `checkObjectViolation` (detection.js:1918-1940). -/
def checkObjectViolation (objectType : String) (st : ObjectTrackState) (threshold : Nat) :
    ObjectTrackState × List Violation :=
  if threshold ≤ st.consecutiveDetections ∧ objectTrackerTiers.medium ≤ st.confidence then
    let severity :=
      if objectTrackerTiers.high ≤ st.confidence ∨ threshold + 2 ≤ st.consecutiveDetections then
        Sev.high
      else
        Sev.medium
    ({ st with consecutiveDetections := threshold / 2 },
      [{ vtype := objectType ++ "_detected_stateful", severity := severity }])
  else
    (st, [])

/-- One iteration of the `updateObjectTracking` loop for a single tracked
type: find a matching detection, update the state, then run the violation
check on the updated state (the source mutates the state record in place,
so `checkObjectViolation` sees the post-update state). -/
def trackObjectTypeTick (tr : ObjectTracker) (predictions : List DetRec) (objectType : String)
    (st : ObjectTrackState) (currentTime : Nat) : ObjectTrackState × List Violation :=
  let st1 :=
    match findObjectInPredictions predictions objectType with
    | some detection => handleObjectDetected st detection.score currentTime
    | none => handleObjectMissed st (gracePeriodFor tr objectType)
  checkObjectViolation objectType st1 (violationThresholdFor tr objectType)

/-- `updateObjectTracking` (detection.js:1799-1823): run the per-type tick
for every tracked type. -/
def updateObjectTracking (tr : ObjectTracker) (predictions : List DetRec) (currentTime : Nat) :
    ObjectTracker × List Violation :=
  let results := tr.trackedObjects.map (fun entry =>
    let (st', vs) := trackObjectTypeTick tr predictions entry.1 entry.2 currentTime
    ((entry.1, st'), vs))
  ({ tr with trackedObjects := results.map Prod.fst },
    (results.map Prod.snd).flatten)

/-- Options bag of `registerObjectType`. -/
structure RegisterOptions where
  gracePeriod : Option Nat
  violationThreshold : Option Nat
  deriving Repr, DecidableEq

/-- `registerObjectType` (detection.js:1763-1782).  The entire body —
creation of the fresh state *and* the application of the overrides — is
guarded by `!this.objectTracker.trackedObjects.has(objectType)`.  The JS
truthiness test `if (options.gracePeriod)` ignores an override of 0. -/
def registerObjectType (tr : ObjectTracker) (objectType : String) (options : RegisterOptions) :
    ObjectTracker :=
  if (tr.trackedObjects.find? (fun p => p.1 == objectType)).isSome then
    tr
  else
    let tracked := tr.trackedObjects ++ [(objectType, freshTrackState)]
    let gp :=
      match options.gracePeriod with
      | some g => if g ≠ 0 then (objectType, g) :: tr.gracePeriod else tr.gracePeriod
      | none => tr.gracePeriod
    let vt :=
      match options.violationThreshold with
      | some v => if v ≠ 0 then (objectType, v) :: tr.violationThresholds
                  else tr.violationThresholds
      | none => tr.violationThresholds
    { trackedObjects := tracked, gracePeriod := gp, violationThresholds := vt }

/-! ## Suspiciousness Scorer -/

/-- A hand bounding box as stored in `this.detectedHands`. -/
structure Hand where
  x : ℚ
  y : ℚ
  width : ℚ
  height : ℚ
  label : String
  confidence : ℚ
  deriving Repr, DecidableEq

/-- `analyzePhoneShape` (detection.js:780-801): portrait 0.4–0.6 or
landscape 1.6–2.5 → +50; loose 0.3–0.7 or 1.4–3.0 → +25; else 0. -/
def analyzePhoneShape (aspect : ℚ) : ℤ :=
  if 2/5 ≤ aspect ∧ aspect ≤ 3/5 then 50
  else if 8/5 ≤ aspect ∧ aspect ≤ 5/2 then 50
  else if (3/10 ≤ aspect ∧ aspect ≤ 7/10) ∨ (7/5 ≤ aspect ∧ aspect ≤ 3) then 25
  else 0

/-- `analyzeHandContext` (detection.js:803-847).  The source compares the
Euclidean distance of the centers against `maxDistance`; since both sides
are nonnegative for real hand/object boxes, the comparison is modelled in
squared form (`distance² < maxDistance²`), avoiding irrational square
roots.  The first hand in iteration order that overlaps wins. -/
def analyzeHandContext (x y width height : ℚ) (detectedHands : List Hand) : ℤ :=
  if detectedHands.isEmpty then 0
  else
    let objectCenterX := x + width / 2
    let objectCenterY := y + height / 2
    match detectedHands.find? (fun hand =>
      let handCenterX := hand.x + hand.width / 2
      let handCenterY := hand.y + hand.height / 2
      let distanceSq := (objectCenterX - handCenterX) ^ 2 + (objectCenterY - handCenterY) ^ 2
      let maxDistance := max hand.width hand.height / 2 + max width height / 2
      distanceSq < maxDistance ^ 2) with
    | some hand => 50 + jsRound (hand.confidence * 20)
    | none => 0

/-- `analyzePhoneSize` (detection.js:849-865). -/
def analyzePhoneSize (width height : ℚ) : ℤ :=
  let objectSize := max width height
  if 30 ≤ objectSize ∧ objectSize ≤ 200 then 25
  else if 140 < objectSize ∧ objectSize < 300 then 10
  else 0

/-- `calculateSuspiciousnessScore` (detection.js:529-565): classification +
shape + hand-context + size terms; a record without a bounding box scores 0.
(`width / height` on a zero-height box is JS `Infinity`; the claims never
touch degenerate boxes, where `ℚ` division would instead give 0.) -/
def calculateSuspiciousnessScore (prediction : DetRec) (detectedHands : List Hand) : ℤ :=
  let className := strLower (prediction.cls.getD "")
  match prediction.bbox with
  | none => 0
  | some b =>
    let classScore : ℤ :=
      if strIncludes className "phone" || strIncludes className "cell" then 100
      else if ["remote", "book", "bottle", "cup"].any (fun item => strIncludes className item) then 25
      else 0
    let aspect := b.w / b.h
    let shapeScore := analyzePhoneShape aspect
    let contextScore := analyzeHandContext b.x b.y b.w b.h detectedHands
    let sizeScore := analyzePhoneSize b.w b.h
    classScore + shapeScore + contextScore + sizeScore

/-- One suspicious-item category of `initializeSuspiciousCategories`. -/
structure Category where
  name : String
  items : List String
  baseScore : ℤ
  violationType : String
  severity : Sev
  deriving Repr, DecidableEq

/-- `this.suspiciousItemsCategories` (detection.js:1691-1721), in object-key
order, which is the `Object.entries` iteration order of the source. -/
def suspiciousItemsCategories : List Category :=
  [ { name := "booksAndPapers"
      items := ["book", "notebook", "paper", "magazine", "journal", "textbook"]
      baseScore := 80, violationType := "books_notes_detected", severity := Sev.high }
  , { name := "electronicDevices"
      items := ["cell phone", "mobile phone", "phone", "smartphone", "tv", "remote",
                "laptop", "mouse", "keyboard", "tablet", "ipad"]
      baseScore := 100, violationType := "electronic_device_detected", severity := Sev.high }
  , { name := "writingMaterials"
      items := ["pencil", "pen", "marker", "highlighter", "eraser"]
      baseScore := 60, violationType := "writing_materials_detected", severity := Sev.medium }
  , { name := "otherSuspicious"
      items := ["cup", "bottle", "bag", "backpack", "wallet", "purse", "calculator"]
      baseScore := 50, violationType := "suspicious_item_detected", severity := Sev.medium } ]

/-- `analyzeObjectShape` (detection.js:1099-1120). -/
def analyzeObjectShape (aspect _width _height : ℚ) (category : Option String) : ℤ :=
  if category = some "booksAndPapers" then
    if (3/5 ≤ aspect ∧ aspect ≤ 4/5) ∨ (6/5 ≤ aspect ∧ aspect ≤ 17/10) then 30 else 0
  else if category = some "electronicDevices" then
    analyzePhoneShape aspect
  else
    if 3/10 ≤ aspect ∧ aspect ≤ 3 then 15 else 0

/-- `analyzeObjectSize` (detection.js:1122-1144). -/
def analyzeObjectSize (width height : ℚ) (category : Option String) : ℤ :=
  let objectSize := max width height
  if category = some "booksAndPapers" then
    if 50 ≤ objectSize ∧ objectSize ≤ 300 then 25 else 0
  else if category = some "electronicDevices" then
    analyzePhoneSize width height
  else
    if 20 ≤ objectSize ∧ objectSize ≤ 200 then 15 else 0

/-- Result shape of `analyzeSuspiciousObject` (its `totalScore` and
`suspiciousnessScore` fields are always equal in the source). -/
structure SuspAnalysis where
  totalScore : ℤ
  violationType : String
  severity : Sev
  detectedCategory : Option String
  deriving Repr, DecidableEq

/-- First category (in `Object.entries` order) matched by the class name:
the `for ... break` loop of `analyzeSuspiciousObject`. -/
def matchedCategory (className : String) : Option Category :=
  suspiciousItemsCategories.find? (fun categoryData =>
    categoryData.items.any (fun item =>
      strIncludes className (strLower item) || strIncludes (strLower item) className))

/-- The score accumulated by `analyzeSuspiciousObject` (detection.js:910-996)
*before* the low-confidence boost: category base score plus, when a valid
bounding box is present, shape + hand-context + size terms. -/
def suspiciousBaseScore (prediction : DetRec) (detectedHands : List Hand) : ℤ :=
  let className := strLower (prediction.cls.getD "")
  if className = "" then 0
  else
    let categoryScore :=
      match matchedCategory className with
      | some categoryData => categoryData.baseScore
      | none => 0
    let geometryScore :=
      match prediction.bbox with
      | some b =>
        if 0 < b.w ∧ 0 < b.h then
          let aspect := b.w / b.h
          let categoryName := (matchedCategory className).map Category.name
          analyzeObjectShape aspect b.w b.h categoryName
            + analyzeHandContext b.x b.y b.w b.h detectedHands
            + analyzeObjectSize b.w b.h categoryName
        else 0
      | none => 0
    categoryScore + geometryScore

/-- `analyzeSuspiciousObject` (detection.js:910-1016): accumulate the base
score, then apply the low-confidence boost.  The boost guard is the JS
condition `prediction.score && prediction.score < 0.6 && totalScore > 0`;
a score of exactly 0 is falsy and therefore receives no boost. -/
def analyzeSuspiciousObject (prediction : DetRec) (detectedHands : List Hand) : SuspAnalysis :=
  let className := strLower (prediction.cls.getD "")
  if className = "" then
    { totalScore := 0, violationType := "suspicious_item_detected", severity := Sev.medium,
      detectedCategory := none }
  else
    let base := suspiciousBaseScore prediction detectedHands
    let boost : ℤ :=
      match prediction.score with
      | some s => if s ≠ 0 ∧ s < 3/5 ∧ 0 < base then jsRound ((3/5 - s) * 50) else 0
      | none => 0
    match matchedCategory className with
    | some categoryData =>
      { totalScore := base + boost, violationType := categoryData.violationType,
        severity := categoryData.severity, detectedCategory := some categoryData.name }
    | none =>
      { totalScore := base + boost, violationType := "suspicious_item_detected",
        severity := Sev.medium, detectedCategory := none }

/-! ## Violation Pathway Arbiter -/

/-- The four `violationPathways` counters.  Thresholds are fixed by the
constructor: directMobile 3, misclassifiedObject 2, personWithObject 4,
highSuspiciousness 1. -/
structure PathwayCounts where
  directMobile : Nat
  misclassifiedObject : Nat
  personWithObject : Nat
  highSuspiciousness : Nat
  deriving Repr, DecidableEq

/-- `resetAllPathways` (detection.js:773-778): zero every key of
`this.violationPathways` — and nothing else. -/
def resetAllPathways : PathwayCounts :=
  { directMobile := 0, misclassifiedObject := 0, personWithObject := 0,
    highSuspiciousness := 0 }

/-- State touched by `processViolationPathways`: the four pathway counters
plus `enhancedViolationSystem.consecutiveSuspiciousFrames`, the pathway-5
consecutive-frame counter (which lives *outside* `violationPathways`). -/
structure ArbState where
  pathways : PathwayCounts
  consecutiveSuspiciousFrames : Nat
  deriving Repr, DecidableEq

/-- A record of `mobileDetections` as assembled by
`checkMobilePhoneDetections`: prediction data plus the confidence level
and suspiciousness score attached there, and whether it came from the
advanced analysis (`detectionMethod === 'advanced-analysis'`). -/
structure MobileDet where
  cls : String
  score : Option ℚ
  confidenceLevel : String
  suspiciousnessScore : ℤ
  advanced : Bool
  deriving Repr, DecidableEq

/-- `processViolationPathways` (detection.js:644-710).  Pathways are tried
in priority order and short-circuit (`return`); a firing pathway among 1–4
calls `resetAllPathways`, which clears only the four `violationPathways`
counters; pathway 5 keeps its own counter discipline. -/
def processViolationPathways (st : ArbState) (detection : MobileDet) :
    ArbState × List Violation :=
  let className := strLower detection.cls
  let suspiciousnessScore := detection.suspiciousnessScore
  if strIncludes className "phone" || strIncludes className "cell" then
    let c := st.pathways.directMobile + 1
    if 3 ≤ c then
      ({ st with pathways := resetAllPathways },
        [{ vtype := "mobile_phone_detected", severity := Sev.high }])
    else
      ({ st with pathways := { st.pathways with directMobile := c } }, [])
  else if 100 ≤ suspiciousnessScore then
    let c := st.pathways.misclassifiedObject + 1
    if 2 ≤ c then
      ({ st with pathways := resetAllPathways },
        [{ vtype := "mobile_phone_detected", severity := Sev.high }])
    else
      ({ st with pathways := { st.pathways with misclassifiedObject := c } }, [])
  else if className = "person" ∧ 75 ≤ suspiciousnessScore then
    let c := st.pathways.personWithObject + 1
    if 4 ≤ c then
      ({ st with pathways := resetAllPathways },
        [{ vtype := "mobile_phone_detected", severity := Sev.medium }])
    else
      ({ st with pathways := { st.pathways with personWithObject := c } }, [])
  else if 150 ≤ suspiciousnessScore then
    let c := st.pathways.highSuspiciousness + 1
    if 1 ≤ c then
      ({ st with pathways := resetAllPathways },
        [{ vtype := "mobile_phone_detected", severity := Sev.high }])
    else
      ({ st with pathways := { st.pathways with highSuspiciousness := c } }, [])
  else if 50 ≤ suspiciousnessScore then
    let c := st.consecutiveSuspiciousFrames + 1
    if 5 ≤ c then
      ({ st with consecutiveSuspiciousFrames := 0 },
        [{ vtype := "mobile_phone_detected", severity := Sev.medium }])
    else
      ({ st with consecutiveSuspiciousFrames := c }, [])
  else
    ({ st with consecutiveSuspiciousFrames := 0 }, [])

/-- `this.confidenceThresholds.mobilePhone = { high: 0.60, medium: 0.45, low: 0.30 }`. -/
def mobilePhoneTiers : TrackerTiers := ⟨3/5, 9/20, 3/10⟩

/-- `mobileKeywords` of `checkMobilePhoneDetections`. -/
def mobileKeywords : List String :=
  ["cell phone", "mobile phone", "phone", "smartphone", "iphone", "android"]

/-- Phase 1 of `checkMobilePhoneDetections` (detection.js:454-492) for one
record whose class is present: a keyword match plus a score reaching the
low tier yields a direct mobile detection carrying 100 suspiciousness
points.  `undefined` scores fail every tier comparison. -/
def directMobileDetection (prediction : DetRec) : Option MobileDet :=
  let className := strLower (prediction.cls.getD "")
  let isMobile := mobileKeywords.any (fun keyword =>
    strIncludes className keyword || strIncludes keyword className)
  if isMobile then
    if optGe prediction.score mobilePhoneTiers.high then
      some { cls := prediction.cls.getD "", score := prediction.score,
             confidenceLevel := "high", suspiciousnessScore := 100, advanced := false }
    else if optGe prediction.score mobilePhoneTiers.medium then
      some { cls := prediction.cls.getD "", score := prediction.score,
             confidenceLevel := "medium", suspiciousnessScore := 100, advanced := false }
    else if optGe prediction.score mobilePhoneTiers.low then
      some { cls := prediction.cls.getD "", score := prediction.score,
             confidenceLevel := "low", suspiciousnessScore := 100, advanced := false }
    else none
  else none

/-- `performAdvancedMobileAnalysis` (detection.js:503-527), detection part:
every record whose suspiciousness score reaches
`advancedMobileDetection.suspiciousnessThreshold = 120` becomes an
advanced-analysis detection. -/
def performAdvancedMobileAnalysis (predictions : List DetRec) (detectedHands : List Hand) :
    List MobileDet :=
  predictions.filterMap (fun prediction =>
    let s := calculateSuspiciousnessScore prediction detectedHands
    if 120 ≤ s then
      some { cls := prediction.cls.getD "", score := prediction.score,
             confidenceLevel := "advanced", suspiciousnessScore := s, advanced := true }
    else none)

/-- `x > c` for a possibly-undefined JS number `x`: `undefined > c` is false. -/
def optGt (x : Option ℚ) (c : ℚ) : Bool :=
  match x with
  | some v => c < v
  | none => false

/-- `updatePersonContext` (detection.js:567-576). -/
def updatePersonContext (predictions : List DetRec) (lastPersonDetection : Option DetRec) :
    Option DetRec :=
  match predictions.find? (fun p =>
      (strLower (p.cls.getD "") == "person") && optGt p.score (1/2)) with
  | some p => some p
  | none => lastPersonDetection

/-- `checkMobilePhoneDetections` (detection.js:454-501).  Phase 1's
`forEach` reads `prediction.class` of every record, so a record whose
`class` is missing throws a `TypeError` there; nothing of the tick's
engine state has been mutated at that point and the exception propagates
to the `catch` of `detectObjectsWithAI` — modelled as `none`.  On success,
phase 2 (`performAdvancedMobileAnalysis`) appends its detections. -/
def checkMobilePhoneDetections (predictions : List DetRec) (detectedHands : List Hand) :
    Option (List MobileDet) :=
  if predictions.all (fun p => p.cls.isSome) then
    some (predictions.filterMap directMobileDetection
      ++ performAdvancedMobileAnalysis predictions detectedHands)
  else
    none

/-- `current.score > best.score ? current : best` — a comparison against an
`undefined` score is false in JS, so the best is replaced only when both
scores are numbers and the current one is strictly larger. -/
def scoreGtOpt (a b : Option ℚ) : Bool :=
  match a, b with
  | some x, some y => y < x
  | _, _ => false

/-- The `reduce` picking `bestDetection` in `processConsecutiveMobileDetections`. -/
def bestByScore (best : MobileDet) : List MobileDet → MobileDet
  | [] => best
  | d :: ds => bestByScore (if scoreGtOpt d.score best.score then d else best) ds

/-- `updateSuspiciousObjectTimer` / `resetSuspiciousObjectTimer`
(detection.js:744-771): start the timer when unset; once ≥ 3000 ms have
accumulated, emit the held-object violation and reset the timer. -/
def updateSuspiciousObjectTimer (lastTime : Option Nat) (currentTime : Nat) :
    Option Nat × List Violation :=
  match lastTime with
  | none => (some currentTime, [])
  | some t0 =>
    if 3000 ≤ currentTime - t0 then
      (none, [{ vtype := "mobile_phone_detected", severity := Sev.medium }])
    else
      (some t0, [])

/-- The engine fields mutated by `processConsecutiveMobileDetections`. -/
structure MobilePipeState where
  arb : ArbState
  phoneDetectedCount : Nat
  phoneMissedCount : Nat
  lastSuspiciousObjectTime : Option Nat
  deriving Repr, DecidableEq

/-- `processConsecutiveMobileDetections` (detection.js:589-642): run every
mobile detection through the pathway arbiter, then the traditional
consecutive-frame logic over the direct (non-advanced) detections
(`requiredConsecutiveDetections = 3`, `allowedMissedFrames = 2`), then the
held-object timer; on a tick without mobile detections, count the miss
and reset the timer. -/
def processConsecutiveMobileDetections (st : MobilePipeState)
    (mobileDetections : List MobileDet) (currentTime : Nat) :
    MobilePipeState × List Violation :=
  if mobileDetections.isEmpty then
    let missed := st.phoneMissedCount + 1
    let counts := if 2 < missed then (0, 0) else (st.phoneDetectedCount, missed)
    ({ st with phoneDetectedCount := counts.1, phoneMissedCount := counts.2,
               lastSuspiciousObjectTime := none }, [])
  else
    let pathwayRun := mobileDetections.foldl
      (fun acc d =>
        let r := processViolationPathways acc.1 d
        (r.1, acc.2 ++ r.2))
      (st.arb, ([] : List Violation))
    let directMobileDetections := mobileDetections.filter (fun d => !d.advanced)
    let traditional : Nat × Nat × List Violation :=
      match directMobileDetections with
      | [] => (st.phoneDetectedCount, st.phoneMissedCount, [])
      | d :: ds =>
        let c := st.phoneDetectedCount + 1
        if 3 ≤ c then
          let best := bestByScore d ds
          (0, 0, [{ vtype := "mobile_phone_detected",
                    severity := if best.confidenceLevel == "high" then Sev.high
                                else Sev.medium }])
        else
          (c, 0, [])
    let timer := updateSuspiciousObjectTimer st.lastSuspiciousObjectTime currentTime
    ({ arb := pathwayRun.1, phoneDetectedCount := traditional.1,
       phoneMissedCount := traditional.2.1, lastSuspiciousObjectTime := timer.1 },
     pathwayRun.2 ++ traditional.2.2 ++ timer.2)

/-! ## Misclassified-Object Heuristic -/

/-- Counters of `this.misclassifiedDetection` (thresholds: personOnly 8,
unknownObject 5, cooldown 10000 ms). -/
structure MisclassifiedState where
  personOnlyFrames : Nat
  unknownObjectFrames : Nat
  lastViolationTime : Nat
  deriving Repr, DecidableEq

/-- `commonSafeObjects` of `isKnownObject`. -/
def commonSafeObjects : List String := ["person", "chair", "desk", "wall", "window", "door"]

/-- `isKnownObject` (detection.js:1087-1097).  Reads
`this.suspiciousItemsCategories` unguarded: the field is assigned only by
the lazy `initializeSuspiciousCategories` inside `analyzeSuspiciousObject`
(detection.js:923-927), so when `isKnownObject` runs before that,
`Object.values(undefined)` throws a `TypeError` — modelled as `none`. -/
def isKnownObject (categories : Option (List Category)) (className : String) : Option Bool :=
  match categories with
  | none => none
  | some cats =>
    some (((cats.map Category.items).flatten).any (fun item =>
        strIncludes className (strLower item) || strIncludes (strLower item) className)
      || commonSafeObjects.contains className)

/-- Result of `checkMisclassifiedObjects`: the updated counters, the
violations emitted before returning or throwing, and whether the
unknown-object filter threw. -/
structure MisclassifiedResult where
  state : MisclassifiedState
  violations : List Violation
  threw : Bool
  deriving Repr, DecidableEq

/-- `checkMisclassifiedObjects` (detection.js:1018-1085).  Scenario 1
(person-only frames) runs first and its mutations stick.  Scenario 2's
filter `!this.isKnownObject(p.class.toLowerCase()) && p.score < 0.6`
calls `isKnownObject` on every non-person record before testing the
score, so while `this.suspiciousItemsCategories` is still undefined it
throws a `TypeError` on the first such record, aborting with only
scenario 1's effects applied. -/
def checkMisclassifiedObjects (categories : Option (List Category)) (m : MisclassifiedState)
    (predictions : List DetRec) (currentTime : Nat) : MisclassifiedResult :=
  let personDetections := predictions.filter (fun p => strLower (p.cls.getD "") == "person")
  let otherDetections := predictions.filter (fun p => strLower (p.cls.getD "") != "person")
  let step1 : MisclassifiedState × List Violation :=
    if !personDetections.isEmpty && otherDetections.isEmpty then
      if (personDetections.find? (fun p => optGe p.score (7/10))).isSome then
        let c := m.personOnlyFrames + 1
        if 8 ≤ c then
          if 10000 ≤ currentTime - m.lastViolationTime then
            ({ m with personOnlyFrames := 0, lastViolationTime := currentTime },
              [{ vtype := "misclassified_object_detected", severity := Sev.medium }])
          else
            ({ m with personOnlyFrames := c }, [])
        else
          ({ m with personOnlyFrames := c }, [])
      else
        ({ m with personOnlyFrames := m.personOnlyFrames - 1 }, [])
    else
      ({ m with personOnlyFrames := 0 }, [])
  let m1 := step1.1
  match categories with
  | none =>
    if otherDetections.isEmpty then
      { state := { m1 with unknownObjectFrames := 0 }, violations := step1.2, threw := false }
    else
      { state := m1, violations := step1.2, threw := true }
  | some cats =>
    let unknownObjects := otherDetections.filter (fun p =>
      match isKnownObject (some cats) (strLower (p.cls.getD "")) with
      | some known => !known && optLt p.score (3/5)
      | none => false)
    let step2 : MisclassifiedState × List Violation :=
      if !unknownObjects.isEmpty then
        let c := m1.unknownObjectFrames + 1
        if 5 ≤ c then
          ({ m1 with unknownObjectFrames := 0 },
            [{ vtype := "unknown_object_detected", severity := Sev.medium }])
        else
          ({ m1 with unknownObjectFrames := c }, [])
      else
        ({ m1 with unknownObjectFrames := 0 }, [])
    { state := step2.1, violations := step1.2 ++ step2.2, threw := false }

/-- Result of `checkOtherSuspiciousObjects`: the (possibly lazily
initialized) category table, the updated misclassified counters, the
violations emitted so far, and the suspicious objects found — `none` when
the tick threw inside the unguarded `checkMisclassifiedObjects` call. -/
structure OtherObjectsResult where
  categories : Option (List Category)
  misclassified : MisclassifiedState
  violations : List Violation
  suspicious : Option (List SuspAnalysis)
  deriving Repr, DecidableEq

/-- `checkOtherSuspiciousObjects` (detection.js:867-908): returns
immediately on an empty prediction list (before the misclassified
heuristic); otherwise runs `checkMisclassifiedObjects` *unguarded*
(line 882) — a `TypeError` from `isKnownObject` on the uninitialized
category table propagates out, aborting before the suspicious-object
analysis — and then maps `analyzeSuspiciousObject` over every record,
keeping those reaching 70 points.  `analyzeSuspiciousObject`'s own first
action is the lazy `initializeSuspiciousCategories` (detection.js:923-927),
so a completed pass over a nonempty list leaves the table initialized.
(The per-record `try/catch` of the `forEach` can only fire on records
that are not objects at all, which the record type excludes, so it is
not modelled.) -/
def checkOtherSuspiciousObjects (categories : Option (List Category)) (m : MisclassifiedState)
    (predictions : List DetRec) (detectedHands : List Hand) (currentTime : Nat) :
    OtherObjectsResult :=
  if predictions.isEmpty then
    { categories := categories, misclassified := m, violations := [], suspicious := some [] }
  else
    let mis := checkMisclassifiedObjects categories m predictions currentTime
    if mis.threw then
      { categories := categories, misclassified := mis.state, violations := mis.violations,
        suspicious := none }
    else
      let suspiciousObjects :=
        (predictions.map (fun p => analyzeSuspiciousObject p detectedHands)).filter
          (fun a => 70 ≤ a.totalScore)
      { categories := some suspiciousItemsCategories, misclassified := mis.state,
        violations := mis.violations, suspicious := some suspiciousObjects }

/-- `processOtherObjects` (detection.js:1146-1165): one violation per
suspicious object, with the category's violation type and severity. -/
def processOtherObjects (suspiciousObjects : List SuspAnalysis) : List Violation :=
  suspiciousObjects.map (fun obj => { vtype := obj.violationType, severity := obj.severity })

/-! ## The per-tick object pipeline (`detectObjectsWithAI`) -/

/-- All engine state mutated by one object-detection tick.  The
`suspiciousItemsCategories` field starts out `none` (the constructor never
assigns it) and becomes the constant table once the lazy
`initializeSuspiciousCategories` has run. -/
structure EngineState where
  arb : ArbState
  phoneDetectedCount : Nat
  phoneMissedCount : Nat
  lastSuspiciousObjectTime : Option Nat
  misclassified : MisclassifiedState
  tracker : ObjectTracker
  lastPersonDetection : Option DetRec
  detectedHands : List Hand
  suspiciousItemsCategories : Option (List Category)
  deriving Repr, DecidableEq

/-- The constructor's initial engine state. -/
def initEngineState : EngineState :=
  { arb := { pathways := resetAllPathways, consecutiveSuspiciousFrames := 0 }
    phoneDetectedCount := 0, phoneMissedCount := 0, lastSuspiciousObjectTime := none
    misclassified := { personOnlyFrames := 0, unknownObjectFrames := 0, lastViolationTime := 0 }
    tracker := initialObjectTracker
    lastPersonDetection := none, detectedHands := []
    suspiciousItemsCategories := none }

/-- The synchronous core of `detectObjectsWithAI` (detection.js:418-452):
steps 1–4 plus `updateObjectTracking`, all inside one `try`, with two
abort paths into its `catch`:
* a record with a missing class throws in step 1
  (`checkMobilePhoneDetections`), before any state mutation, so the tick
  leaves the engine unchanged and emits nothing;
* while `this.suspiciousItemsCategories` is still uninitialized, a tick
  whose prediction list contains a non-person record throws in step 3
  (`isKnownObject` via the unguarded `checkMisclassifiedObjects` call),
  so the mutations and violations of steps 1–2 and of scenario 1 of the
  misclassified heuristic stick, while `processOtherObjects` and
  `updateObjectTracking` are skipped. -/
def detectObjectsTick (st : EngineState) (predictions : List DetRec) (currentTime : Nat) :
    EngineState × List Violation :=
  match checkMobilePhoneDetections predictions st.detectedHands with
  | none => (st, [])
  | some mobileDetections =>
    let lastPerson := updatePersonContext predictions st.lastPersonDetection
    let mp0 : MobilePipeState :=
      { arb := st.arb, phoneDetectedCount := st.phoneDetectedCount,
        phoneMissedCount := st.phoneMissedCount,
        lastSuspiciousObjectTime := st.lastSuspiciousObjectTime }
    let step2 := processConsecutiveMobileDetections mp0 mobileDetections currentTime
    let step3 := checkOtherSuspiciousObjects st.suspiciousItemsCategories st.misclassified
      predictions st.detectedHands currentTime
    match step3.suspicious with
    | none =>
      ({ arb := step2.1.arb, phoneDetectedCount := step2.1.phoneDetectedCount,
         phoneMissedCount := step2.1.phoneMissedCount,
         lastSuspiciousObjectTime := step2.1.lastSuspiciousObjectTime,
         misclassified := step3.misclassified, tracker := st.tracker,
         lastPersonDetection := lastPerson, detectedHands := st.detectedHands,
         suspiciousItemsCategories := step3.categories },
       step2.2 ++ step3.violations)
    | some suspiciousObjects =>
      let vs4 := processOtherObjects suspiciousObjects
      let step5 := updateObjectTracking st.tracker predictions currentTime
      ({ arb := step2.1.arb, phoneDetectedCount := step2.1.phoneDetectedCount,
         phoneMissedCount := step2.1.phoneMissedCount,
         lastSuspiciousObjectTime := step2.1.lastSuspiciousObjectTime,
         misclassified := step3.misclassified, tracker := step5.1,
         lastPersonDetection := lastPerson, detectedHands := st.detectedHands,
         suspiciousItemsCategories := step3.categories },
       step2.2 ++ step3.violations ++ vs4 ++ step5.2)

/-! ## Focus State Machine -/

/-- A face-mesh landmark point.  An entry that is missing or not a point is
`none` in the landmark list, which makes the property accesses of the
source throw. -/
structure Point where
  x : ℚ
  y : ℚ
  deriving Repr, DecidableEq

/-- A face as delivered by the face-detection model: the landmark list may
be absent and individual entries may be malformed. -/
structure Face where
  landmarks : Option (List (Option Point))
  deriving Repr, DecidableEq

/-- `landmarks[i]` with a possibly-out-of-range index and a possibly
malformed entry. -/
def lm (landmarks : List (Option Point)) (i : Nat) : Option Point :=
  (landmarks.get? i).bind id

/-- The focus-tracking fields of the engine. -/
structure FocusState where
  noFaceStartTime : Option Nat
  isCurrentlyNoFace : Bool
  lookingAwayStartTime : Option Nat
  isCurrentlyLookingAway : Bool
  showFocusWarning : Bool
  focusWarningType : Option String
  lastFaceDetection : Nat
  deriving Repr, DecidableEq

/-- `this.noFaceThreshold = 10000` ms. -/
def noFaceThreshold : Nat := 10000

/-- `this.lookingAwayThreshold = 5000` ms. -/
def lookingAwayThreshold : Nat := 5000

/-- `this.headAngleThreshold = 25` degrees. -/
def headAngleThreshold : ℚ := 25

/-- `hideFocusWarning` (detection.js:1322-1328). -/
def hideFocusWarning (st : FocusState) : FocusState :=
  if st.showFocusWarning then
    { st with showFocusWarning := false, focusWarningType := none }
  else
    st

/-- `resetNoFaceTimer` (detection.js:1304-1311). -/
def resetNoFaceTimer (st : FocusState) : FocusState :=
  if st.isCurrentlyNoFace then
    hideFocusWarning { st with noFaceStartTime := none, isCurrentlyNoFace := false }
  else
    st

/-- `resetLookingAwayTimer` (detection.js:1313-1320). -/
def resetLookingAwayTimer (st : FocusState) : FocusState :=
  if st.isCurrentlyLookingAway then
    hideFocusWarning { st with lookingAwayStartTime := none, isCurrentlyLookingAway := false }
  else
    st

/-- `handleNoFaceDetection` (detection.js:1221-1252): start the no-face
timer on the first 0-face tick; afterwards, once the elapsed time reaches
`noFaceThreshold`, mark the warning active, emit the high-severity no-face
violation and restart the timer from the current tick.  Ends by resetting
the looking-away timer.  (`currentTime - null` is `currentTime - 0` in JS,
hence the `getD 0`.) -/
def handleNoFaceDetection (st : FocusState) (currentTime : Nat) :
    FocusState × List Violation :=
  let inner : FocusState × List Violation :=
    if !st.isCurrentlyNoFace then
      ({ st with noFaceStartTime := some currentTime, isCurrentlyNoFace := true }, [])
    else
      let noFaceDuration := currentTime - st.noFaceStartTime.getD 0
      if noFaceThreshold ≤ noFaceDuration then
        ({ st with showFocusWarning := true, focusWarningType := some "no_face",
                   noFaceStartTime := some currentTime },
          [{ vtype := "no_face", severity := Sev.high }])
      else
        (st, [])
  (resetLookingAwayTimer inner.1, inner.2)

/-- `handleLookingAwayDetection` (detection.js:1274-1302). -/
def handleLookingAwayDetection (st : FocusState) (currentTime : Nat) :
    FocusState × List Violation :=
  if !st.isCurrentlyLookingAway then
    ({ st with lookingAwayStartTime := some currentTime, isCurrentlyLookingAway := true }, [])
  else
    let lookingAwayDuration := currentTime - st.lookingAwayStartTime.getD 0
    if lookingAwayThreshold ≤ lookingAwayDuration then
      ({ st with showFocusWarning := true, focusWarningType := some "looking_away",
                 lookingAwayStartTime := some currentTime },
        [{ vtype := "looking_away", severity := Sev.medium }])
    else
      (st, [])

/-- The `try` block of `calculateHeadAngle` (detection.js:1330-1363): the
five landmark accesses, then the yaw estimate.  A malformed landmark makes
an access throw, modelled as `none`.  (`noseOffset / faceWidth` on a
degenerate face of width 0 is JS `NaN`, whose comparisons are all false —
the claims only concern the throwing cases, where `ℚ` and JS agree.) -/
def headAngleTryBlock (landmarks : List (Option Point)) : Option ℚ := do
  let noseTip ← lm landmarks 1
  let leftEye ← lm landmarks 33
  let rightEye ← lm landmarks 263
  let _leftMouth ← lm landmarks 61
  let _rightMouth ← lm landmarks 291
  let eyeCenterX := (leftEye.x + rightEye.x) / 2
  let noseTipX := noseTip.x
  let faceWidth := |rightEye.x - leftEye.x|
  let noseOffset := noseTipX - eyeCenterX
  pure ((noseOffset / faceWidth) * 90)

/-- `calculateHeadAngle` (detection.js:1330-1363): 0 when the landmark list
is absent or shorter than 468, and 0 from the `catch` when a landmark
access throws. -/
def calculateHeadAngle (face : Face) : ℚ :=
  match face.landmarks with
  | none => 0
  | some landmarks =>
    if landmarks.length < 468 then 0
    else (headAngleTryBlock landmarks).getD 0

/-- `handleSingleFaceDetection` (detection.js:1254-1272). -/
def handleSingleFaceDetection (st : FocusState) (face : Face) (currentTime : Nat) :
    FocusState × List Violation :=
  let st1 := resetNoFaceTimer st
  let headAngle := calculateHeadAngle face
  let inner : FocusState × List Violation :=
    if headAngleThreshold < |headAngle| then
      handleLookingAwayDetection st1 currentTime
    else
      (hideFocusWarning (resetLookingAwayTimer st1), [])
  ({ inner.1 with lastFaceDetection := currentTime }, inner.2)

/-- `processFocusDetection` (detection.js:1191-1219): more than one face →
multiple-faces violation and both timers reset; zero faces → no-face
handling; exactly one face → single-face handling. -/
def processFocusDetection (st : FocusState) (faces : List Face) (currentTime : Nat) :
    FocusState × List Violation :=
  match faces with
  | _ :: _ :: _ =>
    (hideFocusWarning (resetLookingAwayTimer (resetNoFaceTimer st)),
      [{ vtype := "multiple_faces", severity := Sev.high }])
  | [] => handleNoFaceDetection st currentTime
  | [face] => handleSingleFaceDetection st face currentTime

/-! ## Gaze estimator (`analyzeGazeDirection` / `detectGazeWithMediaPipe`) -/

/-- Result of `analyzeGazeDirection`. -/
structure GazeResult where
  lookingAtScreen : Bool
  gazeOffsetX : ℚ
  gazeOffsetY : ℚ
  deriving Repr, DecidableEq

/-- The `try` block of `analyzeGazeDirection` (detection.js:2063-2116):
five landmark accesses, normalized nose/eye offsets, dead-zone and
threshold tests. -/
def gazeTryBlock (landmarks : List (Option Point)) : Option GazeResult := do
  let leftEye ← lm landmarks 33
  let rightEye ← lm landmarks 263
  let noseTip ← lm landmarks 1
  let leftEyeOuter ← lm landmarks 130
  let rightEyeOuter ← lm landmarks 359
  let eyeCenterX := (leftEye.x + rightEye.x) / 2
  let eyeCenterY := (leftEye.y + rightEye.y) / 2
  let faceWidth := |leftEyeOuter.x - rightEyeOuter.x|
  let noseToEyeX := |eyeCenterX - noseTip.x|
  let noseToEyeY := |eyeCenterY - noseTip.y|
  let normalizedOffsetX := noseToEyeX / faceWidth
  let normalizedOffsetY := noseToEyeY / faceWidth
  let withinDeadZone := normalizedOffsetX < 8/100 ∧ normalizedOffsetY < 6/100
  let withinThreshold := normalizedOffsetX < 15/100 ∧ normalizedOffsetY < 12/100
  pure { lookingAtScreen := decide (withinDeadZone ∨ withinThreshold),
         gazeOffsetX := normalizedOffsetX, gazeOffsetY := normalizedOffsetY }

/-- `analyzeGazeDirection` (detection.js:2063-2116): the `catch` returns
`lookingAtScreen: true` (fail-safe toward "looking at screen"). -/
def analyzeGazeDirection (landmarks : List (Option Point)) : GazeResult :=
  (gazeTryBlock landmarks).getD
    { lookingAtScreen := true, gazeOffsetX := 0, gazeOffsetY := 0 }

/-- State of the consecutive-frame gaze tracker of
`detectGazeWithMediaPipe` (threshold 35 frames, 15000 ms cooldown,
post-violation counter value 25). -/
structure GazeState where
  consecutiveLookingAwayFrames : Nat
  gazeViolationCooldown : Option Nat
  deriving Repr, DecidableEq

/-- The per-result core of `detectGazeWithMediaPipe` (detection.js:2016-2050)
applied to the first face's landmark list. -/
def gazeTick (st : GazeState) (landmarks : List (Option Point)) (currentTime : Nat) :
    GazeState × List Violation :=
  let gazeDirection := analyzeGazeDirection landmarks
  if !gazeDirection.lookingAtScreen then
    let c := st.consecutiveLookingAwayFrames + 1
    if 35 ≤ c then
      let offCooldown :=
        match st.gazeViolationCooldown with
        | none => true
        | some t0 => 15000 < currentTime - t0
      if offCooldown then
        ({ consecutiveLookingAwayFrames := 25, gazeViolationCooldown := some currentTime },
          [{ vtype := "focus_lost", severity := Sev.medium }])
      else
        ({ st with consecutiveLookingAwayFrames := c }, [])
    else
      ({ st with consecutiveLookingAwayFrames := c }, [])
  else
    ({ st with consecutiveLookingAwayFrames := 0 }, [])

/-! ## Claim theorems -/

/-- A medium-confidence (0.6) mobile detection record. -/
def medMobilePred : DetRec := ⟨some "cell phone", some (3/5), none⟩

/-- Run the per-type tracker over a list of ticks (predictions, timestamp),
collecting the emitted violations. -/
def trackRun (tr : ObjectTracker) (ty : String) (ticks : List (List DetRec × Nat))
    (st : ObjectTrackState) : ObjectTrackState × List Violation :=
  ticks.foldl (fun acc tick =>
    let r := trackObjectTypeTick tr tick.1 ty acc.1 tick.2
    (r.1, acc.2 ++ r.2)) (st, [])

/-- **C1**: when `consecutiveDetections` has reached the type's violation
threshold (mobile 3, book 4, default 3) and the stored confidence is at
least the medium tier (0.5), `checkObjectViolation` emits exactly one
violation — severity high iff the confidence is ≥ the high tier (0.8) or
the count is ≥ threshold + 2, medium otherwise — and then sets
`consecutiveDetections` to `⌊threshold / 2⌋`.  Consequently (final
conjunct) 3 consecutive medium-confidence mobile detections followed by
one more detection tick yield exactly one tracker violation for mobile,
not two. -/
theorem c1_tracker_violation_check (st : ObjectTrackState) (ty : String) (threshold : Nat)
    (hcd : threshold ≤ st.consecutiveDetections)
    (hconf : objectTrackerTiers.medium ≤ st.confidence) :
    checkObjectViolation ty st threshold
      = ({ st with consecutiveDetections := threshold / 2 },
         [{ vtype := ty ++ "_detected_stateful",
            severity :=
              if objectTrackerTiers.high ≤ st.confidence
                  ∨ threshold + 2 ≤ st.consecutiveDetections then Sev.high
              else Sev.medium }])
    ∧ violationThresholdFor initialObjectTracker "mobile" = 3
    ∧ violationThresholdFor initialObjectTracker "book" = 4
    ∧ violationThresholdFor initialObjectTracker "laptop" = 3
    ∧ objectTrackerTiers.medium = 1/2
    ∧ (trackRun initialObjectTracker "mobile"
        [([medMobilePred], 0), ([medMobilePred], 1), ([medMobilePred], 2), ([medMobilePred], 3)]
        freshTrackState).2
      = [{ vtype := "mobile_detected_stateful", severity := Sev.medium }] := by
  refine ⟨?_, by decide, by decide, by decide, by decide, by decide⟩
  rw [checkObjectViolation, if_pos ⟨hcd, hconf⟩]

/-- Witness for `c1_tracker_violation_check` at a concrete state: three
medium-confidence consecutive detections of `mobile` fire one
medium-severity stateful violation and the count is reset to 1. -/
theorem c1_tracker_violation_check_witness :
    checkObjectViolation "mobile"
        { consecutiveDetections := 3, missedFrames := 0, lastDetectionTime := none,
          confidence := (3:ℚ)/5 } 3
      = ({ consecutiveDetections := 1, missedFrames := 0, lastDetectionTime := none,
           confidence := (3:ℚ)/5 },
         [{ vtype := "mobile_detected_stateful", severity := Sev.medium }]) := by
  have h := (c1_tracker_violation_check
    { consecutiveDetections := 3, missedFrames := 0, lastDetectionTime := none,
      confidence := (3:ℚ)/5 } "mobile" 3 (by decide) (by decide)).1
  rw [h]
  decide

/-- A below-low-tier (0.1) mobile detection record. -/
def belowLowMobilePred : DetRec := ⟨some "cell phone", some (1/10), none⟩

/-- A mid-tracking state: 2 consecutive detections, no misses, stored
confidence 0.6. -/
def c2State : ObjectTrackState :=
  { consecutiveDetections := 2, missedFrames := 0, lastDetectionTime := none,
    confidence := (3:ℚ)/5 }

/-- **C2 counterexample**: a matching detection scoring below the low tier
is *not* treated as absent for the tick.  At `c2State`, a tick whose only
matching mobile detection scores 0.1 leaves the tracker state entirely
unchanged, while a genuinely absent tick increments `missedFrames` —
the two outcomes differ. -/
theorem c2_below_low_not_absent :
    (trackObjectTypeTick initialObjectTracker [belowLowMobilePred] "mobile" c2State 5).1 = c2State
    ∧ (trackObjectTypeTick initialObjectTracker [] "mobile" c2State 5).1
        = { c2State with missedFrames := 1 }
    ∧ decide
        ((trackObjectTypeTick initialObjectTracker [belowLowMobilePred] "mobile" c2State 5).1
          = (trackObjectTypeTick initialObjectTracker [] "mobile" c2State 5).1) = false := by
  exact ⟨by decide, by decide, by decide⟩

/-- **C2** (amended): on a tick with a matching detection, a high (≥0.8) or
medium (≥0.5) score increments `consecutiveDetections` and zeroes
`missedFrames`; a low-tier score (≥0.2, <0.5) zeroes `missedFrames` and
leaves `consecutiveDetections` unchanged; a score below the low tier
(<0.2) is ignored entirely, leaving the whole state — including
`missedFrames`, which an absent tick would increment — unchanged. -/
theorem c2_tier_handling (st : ObjectTrackState) (s : ℚ) (t : Nat) :
    (objectTrackerTiers.medium ≤ s →
      handleObjectDetected st (some s) t
        = { st with consecutiveDetections := st.consecutiveDetections + 1, missedFrames := 0,
                    confidence := s, lastDetectionTime := some t })
    ∧ (objectTrackerTiers.low ≤ s → s < objectTrackerTiers.medium →
      handleObjectDetected st (some s) t
        = { st with missedFrames := 0, confidence := s, lastDetectionTime := some t })
    ∧ (s < objectTrackerTiers.low → handleObjectDetected st (some s) t = st) := by
  refine ⟨fun h => ?_, fun h1 h2 => ?_, fun h => ?_⟩ <;>
    · simp only [handleObjectDetected]
      split_ifs <;>
        first
          | rfl
          | (exfalso; simp only [objectTrackerTiers] at *; linarith)

/-- Witness for `c2_tier_handling`: at `c2State`, a low-tier (0.3)
detection zeroes misses without touching the count, and a below-low (0.1)
detection changes nothing. -/
theorem c2_tier_handling_witness :
    handleObjectDetected c2State (some ((3:ℚ)/5)) 9
      = { consecutiveDetections := 3, missedFrames := 0, lastDetectionTime := some 9,
          confidence := (3:ℚ)/5 }
    ∧ handleObjectDetected c2State (some ((3:ℚ)/10)) 9
      = { c2State with missedFrames := 0, confidence := (3:ℚ)/10, lastDetectionTime := some 9 }
    ∧ handleObjectDetected c2State (some ((1:ℚ)/10)) 9 = c2State := by
  have hm := c2_tier_handling c2State ((3:ℚ)/5) 9
  have h := c2_tier_handling c2State ((3:ℚ)/10) 9
  have h' := c2_tier_handling c2State ((1:ℚ)/10) 9
  exact ⟨hm.1 (by decide), h.2.1 (by decide) (by decide), h'.2.2 (by decide)⟩

/-- **C3**: `handleObjectMissed` always increments `missedFrames`; the
count and confidence are reset to 0 exactly when the incremented
`missedFrames` exceeds the grace period (mobile 3, book 4, default 2 —
`laptop` is an unregistered type, so it gets the default).  For grace
period 2: one miss then a medium detection resumes the existing count
(2 → 3 with no reset), while three consecutive misses reset it to 0. -/
theorem c3_grace_period (st : ObjectTrackState) (gracePeriod : Nat) :
    ((handleObjectMissed st gracePeriod).missedFrames = st.missedFrames + 1)
    ∧ (st.missedFrames + 1 ≤ gracePeriod →
        (handleObjectMissed st gracePeriod).consecutiveDetections = st.consecutiveDetections
        ∧ (handleObjectMissed st gracePeriod).confidence = st.confidence)
    ∧ (gracePeriod < st.missedFrames + 1 →
        (handleObjectMissed st gracePeriod).consecutiveDetections = 0
        ∧ (handleObjectMissed st gracePeriod).confidence = 0)
    ∧ gracePeriodFor initialObjectTracker "mobile" = 3
    ∧ gracePeriodFor initialObjectTracker "book" = 4
    ∧ gracePeriodFor initialObjectTracker "laptop" = 2
    ∧ handleObjectDetected (handleObjectMissed c2State 2) (some ((3:ℚ)/5)) 7
        = { consecutiveDetections := 3, missedFrames := 0, lastDetectionTime := some 7,
            confidence := (3:ℚ)/5 }
    ∧ (handleObjectMissed (handleObjectMissed (handleObjectMissed c2State 2) 2) 2).consecutiveDetections
        = 0 := by
  refine ⟨?_, fun h => ?_, fun h => ?_, by decide, by decide, by decide, by decide, by decide⟩
  · simp only [handleObjectMissed]
    split_ifs <;> rfl
  · simp only [handleObjectMissed]
    rw [if_neg (by omega)]
    exact ⟨rfl, rfl⟩
  · simp only [handleObjectMissed]
    rw [if_pos (by omega)]
    exact ⟨rfl, rfl⟩

/-- Witness for `c3_grace_period` at a concrete state: one miss at
`c2State` (grace period 2) keeps the count at 2; a third consecutive miss
at `missedFrames = 2` resets it. -/
theorem c3_grace_period_witness :
    (handleObjectMissed c2State 2).consecutiveDetections = 2
    ∧ (handleObjectMissed { c2State with missedFrames := 2 } 2).consecutiveDetections = 0 := by
  have h1 := c3_grace_period c2State 2
  have h2 := c3_grace_period { c2State with missedFrames := 2 } 2
  exact ⟨(h1.2.1 (by decide)).1, (h2.2.2.1 (by decide)).1⟩

/-- **C9**: `registerObjectType` on an already-tracked type is a complete
no-op: the tracker — per-type state, grace-period table and
violation-threshold table alike — is returned unchanged, so any overrides
in the options bag are silently ignored. -/
theorem c9_register_existing_noop (tr : ObjectTracker) (objectType : String)
    (options : RegisterOptions)
    (h : (tr.trackedObjects.find? (fun p => p.1 == objectType)).isSome) :
    registerObjectType tr objectType options = tr := by
  rw [registerObjectType, if_pos h]

/-- Witness for `c9_register_existing_noop`: re-registering `mobile` with
gracePeriod 7 and violationThreshold 9 overrides leaves the initial
tracker untouched. -/
theorem c9_register_existing_noop_witness :
    registerObjectType initialObjectTracker "mobile"
        { gracePeriod := some 7, violationThreshold := some 9 }
      = initialObjectTracker :=
  c9_register_existing_noop initialObjectTracker "mobile"
    { gracePeriod := some 7, violationThreshold := some 9 } (by decide)

/-- The `{class: "cell phone", score: 0.65}` record of the C4 scenario
(no bounding box, as given). -/
def cellPhonePred : DetRec := ⟨some "cell phone", some (13/20), none⟩

/-- The mobile-detections entry built from `cellPhonePred` by
`checkMobilePhoneDetections` (0.65 ≥ high tier 0.60). -/
def cellPhoneMobileDet : MobileDet :=
  { cls := "cell phone", score := some (13/20), confidenceLevel := "high",
    suspiciousnessScore := 100, advanced := false }

/-- An arbiter state in which the pathway-5 counter is already 2 and
pathway 1 is one detection away from firing. -/
def c4ArbState : ArbState :=
  { pathways := { directMobile := 2, misclassifiedObject := 0, personWithObject := 0,
                  highSuspiciousness := 0 },
    consecutiveSuspiciousFrames := 2 }

/-- **C4 counterexample**: firing pathway 1 (a cell-phone detection that
takes `directMobile` from 2 to its threshold 3) emits the violation and
calls `resetAllPathways`, but the pathway-5 sustained-moderate counter
`consecutiveSuspiciousFrames` stays at 2 — it is *not* reset to 0 as the
claim requires. -/
theorem c4_pathway5_not_reset :
    (processViolationPathways c4ArbState cellPhoneMobileDet).2
      = [{ vtype := "mobile_phone_detected", severity := Sev.high }]
    ∧ (processViolationPathways c4ArbState cellPhoneMobileDet).1.pathways = resetAllPathways
    ∧ (processViolationPathways c4ArbState cellPhoneMobileDet).1.consecutiveSuspiciousFrames = 2
    ∧ decide
        ((processViolationPathways c4ArbState cellPhoneMobileDet).1.consecutiveSuspiciousFrames
          = 0) = false := by
  exact ⟨by decide, by decide, by decide, by decide⟩

/-- Tick 1 of the C4 scenario: `{class:"cell phone", score:0.65}` with no
hands in frame, at t = 0 ms. -/
def c4Run1 : EngineState × List Violation :=
  detectObjectsTick initEngineState [cellPhonePred] 0

/-- Tick 2 of the C4 scenario, at t = 1000 ms. -/
def c4Run2 : EngineState × List Violation :=
  detectObjectsTick c4Run1.1 [cellPhonePred] 1000

/-- Tick 3 of the C4 scenario, at t = 2000 ms. -/
def c4Run3 : EngineState × List Violation :=
  detectObjectsTick c4Run2.1 [cellPhonePred] 2000

/-- **C4** (amended): whenever one of the four counted pathways (direct
classification, misclassified object, person-with-object, very-high
suspiciousness) fires, the four `violationPathways` counters are reset to
0, but the pathway-5 sustained-moderate-suspiciousness counter
`consecutiveSuspiciousFrames` — which lives outside `violationPathways` —
is left unchanged, not reset.  In the scenario of
`{class:"cell phone", score:0.65}` repeated for 3 ticks with no hands,
run from the constructor state, ticks 1 and 2 emit nothing (the pathway
counter reaches 1 then 2; each tick's step 3 then aborts with the
uninitialized-categories `TypeError`, which cannot undo the already
applied pathway mutations), pathway 1 fires at tick 3 with severity high,
and all four pathway counters (and the pathway-5 counter, which was never
raised) are 0 afterwards. -/
theorem c4_pathway_reset (st : ArbState) (d : MobileDet) :
    ((strIncludes (strLower d.cls) "phone" || strIncludes (strLower d.cls) "cell") = true →
        3 ≤ st.pathways.directMobile + 1 →
        processViolationPathways st d
          = ({ pathways := resetAllPathways,
               consecutiveSuspiciousFrames := st.consecutiveSuspiciousFrames },
             [{ vtype := "mobile_phone_detected", severity := Sev.high }]))
    ∧ ((strIncludes (strLower d.cls) "phone" || strIncludes (strLower d.cls) "cell") = false →
        100 ≤ d.suspiciousnessScore →
        2 ≤ st.pathways.misclassifiedObject + 1 →
        processViolationPathways st d
          = ({ pathways := resetAllPathways,
               consecutiveSuspiciousFrames := st.consecutiveSuspiciousFrames },
             [{ vtype := "mobile_phone_detected", severity := Sev.high }]))
    ∧ ((strIncludes (strLower d.cls) "phone" || strIncludes (strLower d.cls) "cell") = false →
        d.suspiciousnessScore < 100 →
        strLower d.cls = "person" →
        75 ≤ d.suspiciousnessScore →
        4 ≤ st.pathways.personWithObject + 1 →
        processViolationPathways st d
          = ({ pathways := resetAllPathways,
               consecutiveSuspiciousFrames := st.consecutiveSuspiciousFrames },
             [{ vtype := "mobile_phone_detected", severity := Sev.medium }]))
    ∧ ((strIncludes (strLower d.cls) "phone" || strIncludes (strLower d.cls) "cell") = false →
        d.suspiciousnessScore < 100 →
        ¬(strLower d.cls = "person" ∧ 75 ≤ d.suspiciousnessScore) →
        150 ≤ d.suspiciousnessScore →
        processViolationPathways st d
          = ({ pathways := resetAllPathways,
               consecutiveSuspiciousFrames := st.consecutiveSuspiciousFrames },
             [{ vtype := "mobile_phone_detected", severity := Sev.high }]))
    ∧ c4Run1.1.arb.pathways.directMobile = 1
    ∧ c4Run1.2 = []
    ∧ c4Run2.1.arb.pathways.directMobile = 2
    ∧ c4Run2.2 = []
    ∧ { vtype := "mobile_phone_detected", severity := Sev.high } ∈ c4Run3.2
    ∧ c4Run3.1.arb
        = { pathways := resetAllPathways, consecutiveSuspiciousFrames := 0 } := by
  refine ⟨fun h1 h2 => ?_, fun h1 h2 h3 => ?_, fun h1 h2 h3 h4 h5 => ?_,
    fun h1 h2 h3 h4 => ?_, by decide, by decide, by decide, by decide, by decide, by decide⟩
  · simp only [processViolationPathways, h1, if_pos h2, if_true]
  · simp only [processViolationPathways, h1, Bool.false_eq_true, if_false,
      if_pos h2, if_pos h3]
  · have h2' : ¬(100 ≤ d.suspiciousnessScore) := by omega
    simp only [processViolationPathways, h1, Bool.false_eq_true, if_false, if_neg h2']
    rw [if_pos (show strLower d.cls = "person" ∧ 75 ≤ d.suspiciousnessScore from ⟨h3, h4⟩),
      if_pos h5]
  · have h2' : ¬(100 ≤ d.suspiciousnessScore) := by omega
    simp only [processViolationPathways, h1, Bool.false_eq_true, if_false,
      if_neg h2', if_neg h3]
    rw [if_pos h4, if_pos (Nat.le_add_left 1 st.pathways.highSuspiciousness)]

/-- Witness for `c4_pathway_reset`: at `c4ArbState`, the cell-phone
detection fires pathway 1, resets the four counters and leaves the
pathway-5 counter at 2. -/
theorem c4_pathway_reset_witness :
    processViolationPathways c4ArbState cellPhoneMobileDet
      = ({ pathways := resetAllPathways, consecutiveSuspiciousFrames := 2 },
         [{ vtype := "mobile_phone_detected", severity := Sev.high }]) := by
  have h := (c4_pathway_reset c4ArbState cellPhoneMobileDet).1 (by decide) (by decide)
  rw [h]
  decide

/-- `analyzeSuspiciousObject` in closed form: the accumulated base score
plus the low-confidence boost, which applies exactly when the score is a
truthy (nonzero) number below 0.6 and some term already contributed. -/
theorem analyzeSuspiciousObject_totalScore (p : DetRec) (hands : List Hand) (s : ℚ)
    (hs : p.score = some s) :
    (analyzeSuspiciousObject p hands).totalScore
      = suspiciousBaseScore p hands +
        (if s ≠ 0 ∧ s < 3/5 ∧ 0 < suspiciousBaseScore p hands
         then jsRound ((3/5 - s) * 50) else 0) := by
  by_cases hcn : strLower (p.cls.getD "") = ""
  · have hbase : suspiciousBaseScore p hands = 0 := by
      simp only [suspiciousBaseScore]
      rw [if_pos hcn]
    simp only [analyzeSuspiciousObject]
    rw [if_pos hcn]
    simp [hbase]
  · simp only [analyzeSuspiciousObject, hs]
    rw [if_neg hcn]
    cases hmc : matchedCategory (strLower (p.cls.getD "")) <;> simp [hmc]

/-- The `{class: "book", score: 0}` record: the classification term fires
(booksAndPapers, +80) and the score is below 0.6, yet no boost is added. -/
def bookZeroScorePred : DetRec := ⟨some "book", some 0, none⟩

/-- **C5 counterexample**: for a detection with score exactly 0 — inside
`[0, 1]` and below 0.6 — whose classification term contributed 80 points,
the claim demands a boost of `round((0.6 - 0) * 50) = 30`, but the JS
guard `prediction.score &&` is falsy at 0, so the total stays 80. -/
theorem c5_zero_score_no_boost :
    suspiciousBaseScore bookZeroScorePred [] = 80
    ∧ (analyzeSuspiciousObject bookZeroScorePred []).totalScore = 80
    ∧ jsRound ((3/5 - 0) * 50) = 30
    ∧ decide
        ((analyzeSuspiciousObject bookZeroScorePred []).totalScore
          = suspiciousBaseScore bookZeroScorePred [] + jsRound ((3/5 - 0) * 50)) = false := by
  exact ⟨by decide, by decide, by decide, by decide⟩

/-- **C5** (amended): for an object detection whose score is a *nonzero*
number below 0.6 and for which the classification / shape / size /
hand-context terms accumulated a positive base score, the scorer adds
`round((0.6 - score) * 50)`; no boost is added when the score is ≥ 0.6,
when no term contributed, or when the score is exactly 0 (falsy in the JS
guard `prediction.score && ...`). -/
theorem c5_low_confidence_boost (p : DetRec) (hands : List Hand) (s : ℚ)
    (hs : p.score = some s) :
    (s ≠ 0 → s < 3/5 → 0 < suspiciousBaseScore p hands →
      (analyzeSuspiciousObject p hands).totalScore
        = suspiciousBaseScore p hands + jsRound ((3/5 - s) * 50))
    ∧ ((3:ℚ)/5 ≤ s →
      (analyzeSuspiciousObject p hands).totalScore = suspiciousBaseScore p hands)
    ∧ (s = 0 →
      (analyzeSuspiciousObject p hands).totalScore = suspiciousBaseScore p hands)
    ∧ (suspiciousBaseScore p hands = 0 →
      (analyzeSuspiciousObject p hands).totalScore = suspiciousBaseScore p hands) := by
  have key := analyzeSuspiciousObject_totalScore p hands s hs
  refine ⟨fun h1 h2 h3 => ?_, fun h => ?_, fun h => ?_, fun h => ?_⟩
  · rw [key, if_pos ⟨h1, h2, h3⟩]
  · rw [key, if_neg ?_]
    · simp
    · push_neg
      intro _ hlt
      exact absurd hlt (by linarith)
  · rw [key, if_neg (by simp [h])]
    simp
  · rw [key, if_neg (by simp [h])]
    simp

/-- Witness for `c5_low_confidence_boost`: a `book` detection with score
0.5 gets base 80 plus boost `round(0.1 * 50) = 5`, i.e. 85. -/
theorem c5_low_confidence_boost_witness :
    (analyzeSuspiciousObject ⟨some "book", some (1/2), none⟩ []).totalScore
      = suspiciousBaseScore ⟨some "book", some (1/2), none⟩ [] + jsRound ((3/5 - 1/2) * 50)
    ∧ (analyzeSuspiciousObject ⟨some "book", some (1/2), none⟩ []).totalScore = 85 := by
  have h := (c5_low_confidence_boost ⟨some "book", some (1/2), none⟩ [] (1/2) rfl).1
    (by norm_num) (by norm_num) (by decide)
  exact ⟨h, by decide⟩

/-- A malformed record: its `class` field is missing (score and bbox are
present). -/
def noClassPred : DetRec := ⟨none, some (9/10), some ⟨10, 10, 50, 100⟩⟩

/-- A fully well-formed cell-phone record. -/
def goodCellPhonePred : DetRec := ⟨some "cell phone", some (13/20), some ⟨0, 0, 50, 100⟩⟩

/-- The engine state once `initializeSuspiciousCategories` has run — as
after any completed tick whose records are all person-class (the lazy
init is proved reachable in `c8_missing_class_aborts_tick`). -/
def warmEngineState : EngineState :=
  { initEngineState with suspiciousItemsCategories := some suspiciousItemsCategories }

/-- A person detection with confidence 0.5 (enough for a tick that
completes step 3 and thereby performs the lazy category init). -/
def personHalfPred : DetRec := ⟨some "person", some (1/2), none⟩

/-- **C8** (code bug): a tick whose prediction list contains one record
with a missing `class` is aborted wholesale — `prediction.class.toLowerCase()`
throws inside `checkMobilePhoneDetections` and the `catch` in
`detectObjectsWithAI` swallows the whole tick — so the engine state is
returned unchanged and no violation is emitted, even though the same tick
also contains a well-formed cell-phone record.  This holds on the fresh
engine and on the warmed engine (categories initialized; shown reachable
by an all-person tick) alike.  By contrast, the well-formed record alone
on the warmed engine is fully processed: pathway counter at 2, mobile
tracker at one consecutive detection, and a violation emitted; even on
the fresh engine it still reaches the mobile-detection and pathway logic
(counter at 2) before the tick's separate uninitialized-categories
`TypeError` cuts off the tracking step. -/
theorem c8_missing_class_aborts_tick :
    detectObjectsTick initEngineState [noClassPred, goodCellPhonePred] 0
      = (initEngineState, [])
    ∧ detectObjectsTick warmEngineState [noClassPred, goodCellPhonePred] 0
      = (warmEngineState, [])
    ∧ (detectObjectsTick initEngineState [personHalfPred] 0).1.suspiciousItemsCategories
      = some suspiciousItemsCategories
    ∧ (detectObjectsTick warmEngineState [goodCellPhonePred] 0).1.arb.pathways.directMobile = 2
    ∧ ((detectObjectsTick warmEngineState [goodCellPhonePred] 0).1.tracker.trackedObjects.find?
        (fun p => p.1 == "mobile"))
      = some ("mobile",
          { consecutiveDetections := 1, missedFrames := 0, lastDetectionTime := some 0,
            confidence := (13:ℚ)/20 })
    ∧ (detectObjectsTick warmEngineState [goodCellPhonePred] 0).2
      = [{ vtype := "electronic_device_detected", severity := Sev.high }]
    ∧ (detectObjectsTick initEngineState [goodCellPhonePred] 0).1.arb.pathways.directMobile = 2
    ∧ (detectObjectsTick initEngineState [goodCellPhonePred] 0).2 = []
    ∧ (detectObjectsTick initEngineState [goodCellPhonePred] 0).1.tracker
      = initialObjectTracker := by
  exact ⟨by decide, by decide, by decide, by decide, by decide, by decide, by decide,
    by decide, by decide⟩

/-- `hideFocusWarning` does not touch the no-face flag. -/
theorem hideFocusWarning_noFace (st : FocusState) :
    (hideFocusWarning st).isCurrentlyNoFace = st.isCurrentlyNoFace := by
  simp only [hideFocusWarning]
  split_ifs <;> rfl

/-- `hideFocusWarning` does not touch the looking-away flag. -/
theorem hideFocusWarning_la (st : FocusState) :
    (hideFocusWarning st).isCurrentlyLookingAway = st.isCurrentlyLookingAway := by
  simp only [hideFocusWarning]
  split_ifs <;> rfl

/-- After `resetNoFaceTimer` the no-face flag is always false. -/
theorem resetNoFaceTimer_noFace (st : FocusState) :
    (resetNoFaceTimer st).isCurrentlyNoFace = false := by
  simp only [resetNoFaceTimer]
  split_ifs with h
  · rw [hideFocusWarning_noFace]
  · simpa using h

/-- `resetNoFaceTimer` does not touch the looking-away flag. -/
theorem resetNoFaceTimer_la (st : FocusState) :
    (resetNoFaceTimer st).isCurrentlyLookingAway = st.isCurrentlyLookingAway := by
  simp only [resetNoFaceTimer]
  split_ifs <;> simp [hideFocusWarning_la]

/-- After `resetLookingAwayTimer` the looking-away flag is always false. -/
theorem resetLookingAwayTimer_la (st : FocusState) :
    (resetLookingAwayTimer st).isCurrentlyLookingAway = false := by
  simp only [resetLookingAwayTimer]
  split_ifs with h
  · rw [hideFocusWarning_la]
  · simpa using h

/-- `resetLookingAwayTimer` does not touch the no-face flag. -/
theorem resetLookingAwayTimer_noFace (st : FocusState) :
    (resetLookingAwayTimer st).isCurrentlyNoFace = st.isCurrentlyNoFace := by
  simp only [resetLookingAwayTimer]
  split_ifs <;> simp [hideFocusWarning_noFace]

/-- `resetLookingAwayTimer` is the identity when the looking-away flag is
already down. -/
theorem resetLookingAwayTimer_id (st : FocusState) (h : st.isCurrentlyLookingAway = false) :
    resetLookingAwayTimer st = st := by
  simp [resetLookingAwayTimer, h]

/-- `handleLookingAwayDetection` does not touch the no-face flag. -/
theorem handleLookingAwayDetection_noFace (st : FocusState) (t : Nat) :
    (handleLookingAwayDetection st t).1.isCurrentlyNoFace = st.isCurrentlyNoFace := by
  simp only [handleLookingAwayDetection]
  split_ifs <;> rfl

/-- The looking-away flag after `handleNoFaceDetection` is always false. -/
theorem handleNoFaceDetection_la (st : FocusState) (t : Nat) :
    (handleNoFaceDetection st t).1.isCurrentlyLookingAway = false := by
  simp only [handleNoFaceDetection]
  rw [resetLookingAwayTimer_la]

/-- The no-face flag after `handleSingleFaceDetection` is always false. -/
theorem handleSingleFaceDetection_noFace (st : FocusState) (face : Face) (t : Nat) :
    (handleSingleFaceDetection st face t).1.isCurrentlyNoFace = false := by
  simp only [handleSingleFaceDetection]
  split_ifs
  · rw [handleLookingAwayDetection_noFace, resetNoFaceTimer_noFace]
  · rw [hideFocusWarning_noFace, resetLookingAwayTimer_noFace, resetNoFaceTimer_noFace]

/-- **C7**: after every focus-detection tick — whatever the incoming state
and whatever FaceSet (0, 1 or many faces) is processed — the flags
`isCurrentlyNoFace` and `isCurrentlyLookingAway` are never both true:
the no-face path ends by resetting the looking-away timer, and the
single-face path (the only one that can raise the looking-away flag)
starts by resetting the no-face timer. -/
theorem c7_focus_flags_mutually_exclusive (st : FocusState) (faces : List Face) (t : Nat) :
    ((processFocusDetection st faces t).1.isCurrentlyNoFace
      && (processFocusDetection st faces t).1.isCurrentlyLookingAway) = false := by
  match faces with
  | _ :: _ :: _ =>
    rw [processFocusDetection]
    simp only [hideFocusWarning_noFace, resetLookingAwayTimer_noFace,
      resetNoFaceTimer_noFace, Bool.false_and]
  | [] =>
    rw [processFocusDetection]
    rw [handleNoFaceDetection_la, Bool.and_false]
  | [face] =>
    rw [processFocusDetection]
    rw [handleSingleFaceDetection_noFace, Bool.false_and]

/-- The focus state at engine start. -/
def initFocusState : FocusState :=
  { noFaceStartTime := none, isCurrentlyNoFace := false, lookingAwayStartTime := none,
    isCurrentlyLookingAway := false, showFocusWarning := false, focusWarningType := none,
    lastFaceDetection := 0 }

/-- Run `handleNoFaceDetection` over a list of tick timestamps, recording
how many violations each tick emitted. -/
def noFaceRun (ticks : List Nat) : List Nat :=
  (ticks.foldl (fun (acc : FocusState × List Nat) t =>
    let r := handleNoFaceDetection acc.1 t
    (r.1, acc.2 ++ [r.2.length])) (initFocusState, [])).2

/-- **C6**: on a 0-face tick, the no-face timer is started when it was not
running (no violation on that tick) and continued when it was; the
high-severity no-face violation is emitted exactly once the elapsed time
since the timer start reaches the 10000 ms threshold, upon which the
warning state is marked active and the timer is restarted from the
current tick.  Hence (final conjunct) 0-face ticks at 0, 5000, 10000,
15000 and 20000 ms emit violations exactly at 10000 and 20000 ms.  (The
looking-away flag is assumed down, which by `c7` holds on any reachable
no-face tick; the trailing `resetLookingAwayTimer` is then the
identity.) -/
theorem c6_no_face_timing (st : FocusState) (t t0 : Nat)
    (hla : st.isCurrentlyLookingAway = false) :
    (st.isCurrentlyNoFace = false →
      handleNoFaceDetection st t
        = ({ st with noFaceStartTime := some t, isCurrentlyNoFace := true }, []))
    ∧ (st.isCurrentlyNoFace = true → st.noFaceStartTime = some t0 →
        (t - t0 < noFaceThreshold → handleNoFaceDetection st t = (st, []))
        ∧ (noFaceThreshold ≤ t - t0 →
            handleNoFaceDetection st t
              = ({ st with showFocusWarning := true, focusWarningType := some "no_face",
                           noFaceStartTime := some t },
                 [{ vtype := "no_face", severity := Sev.high }])))
    ∧ noFaceThreshold = 10000
    ∧ noFaceRun [0, 5000, 10000, 15000, 20000] = [0, 0, 1, 0, 1] := by
  refine ⟨fun h => ?_, fun h hst => ⟨fun hlt => ?_, fun hge => ?_⟩, by decide, by decide⟩
  · simp only [handleNoFaceDetection, h, Bool.not_false, if_true]
    rw [resetLookingAwayTimer_id _ (by simpa using hla)]
  · simp only [handleNoFaceDetection, h, Bool.not_true, Bool.false_eq_true, if_false, hst,
      Option.getD_some]
    rw [if_neg (by omega), resetLookingAwayTimer_id _ hla]
  · simp only [handleNoFaceDetection, h, Bool.not_true, Bool.false_eq_true, if_false, hst,
      Option.getD_some]
    rw [if_pos hge, resetLookingAwayTimer_id _ (by simpa using hla)]

/-- Witness for `c6_no_face_timing`: from the initial state, a 0-face tick
at t = 3 starts the timer silently; with the timer running since t = 0, a
tick at 9999 emits nothing and a tick at 10000 emits the single no-face
violation and re-arms the timer at 10000. -/
theorem c6_no_face_timing_witness :
    handleNoFaceDetection initFocusState 3
      = ({ initFocusState with noFaceStartTime := some 3, isCurrentlyNoFace := true }, [])
    ∧ handleNoFaceDetection
        { initFocusState with noFaceStartTime := some 0, isCurrentlyNoFace := true } 9999
      = ({ initFocusState with noFaceStartTime := some 0, isCurrentlyNoFace := true }, [])
    ∧ handleNoFaceDetection
        { initFocusState with noFaceStartTime := some 0, isCurrentlyNoFace := true } 10000
      = ({ noFaceStartTime := some 10000, isCurrentlyNoFace := true,
           lookingAwayStartTime := none, isCurrentlyLookingAway := false,
           showFocusWarning := true, focusWarningType := some "no_face",
           lastFaceDetection := 0 },
         [{ vtype := "no_face", severity := Sev.high }]) := by
  have h1 := (c6_no_face_timing initFocusState 3 0 rfl).1 rfl
  have h2 := ((c6_no_face_timing
    { initFocusState with noFaceStartTime := some 0, isCurrentlyNoFace := true } 9999 0
    rfl).2.1 rfl rfl).1 (by decide)
  have h3 := ((c6_no_face_timing
    { initFocusState with noFaceStartTime := some 0, isCurrentlyNoFace := true } 10000 0
    rfl).2.1 rfl rfl).2 (by decide)
  refine ⟨h1, h2, ?_⟩
  rw [h3]
  rfl

/-- Landmark data on which `calculateHeadAngle`'s guards or `try` fire: no
landmark list, fewer than 468 landmarks, or a malformed entry at one of
the five accessed indices. -/
def headAngleDataBad (face : Face) : Bool :=
  match face.landmarks with
  | none => true
  | some landmarks =>
    decide (landmarks.length < 468) || (lm landmarks 1).isNone || (lm landmarks 33).isNone
      || (lm landmarks 263).isNone || (lm landmarks 61).isNone || (lm landmarks 291).isNone

/-- Landmark data on which `analyzeGazeDirection`'s `try` throws: a missing
or malformed entry at one of the five accessed indices. -/
def gazeDataBad (landmarks : List (Option Point)) : Bool :=
  (lm landmarks 33).isNone || (lm landmarks 263).isNone || (lm landmarks 1).isNone
    || (lm landmarks 130).isNone || (lm landmarks 359).isNone

/-- A malformed landmark access makes the head-angle `try` block throw. -/
theorem headAngleTryBlock_eq_none (landmarks : List (Option Point))
    (h : ((lm landmarks 1).isNone || (lm landmarks 33).isNone || (lm landmarks 263).isNone
      || (lm landmarks 61).isNone || (lm landmarks 291).isNone) = true) :
    headAngleTryBlock landmarks = none := by
  cases hl1 : lm landmarks 1 <;> cases hl2 : lm landmarks 33 <;>
    cases hl3 : lm landmarks 263 <;> cases hl4 : lm landmarks 61 <;>
    cases hl5 : lm landmarks 291 <;>
    simp_all [headAngleTryBlock]

/-- A malformed landmark access makes the gaze `try` block throw. -/
theorem gazeTryBlock_eq_none (landmarks : List (Option Point))
    (h : gazeDataBad landmarks = true) :
    gazeTryBlock landmarks = none := by
  unfold gazeDataBad at h
  cases hl1 : lm landmarks 33 <;> cases hl2 : lm landmarks 263 <;>
    cases hl3 : lm landmarks 1 <;> cases hl4 : lm landmarks 130 <;>
    cases hl5 : lm landmarks 359 <;>
    simp_all [gazeTryBlock]

/-- **C10**: both gaze estimators fail safe toward "looking at screen" on
malformed or missing landmark data: `calculateHeadAngle` returns 0 when
the landmark list is absent, shorter than 468, or when a landmark access
throws, so the single-face handler takes the looking-at-screen branch
(looking-away flag down, no violation); and `analyzeGazeDirection` falls
back to `lookingAtScreen = true` when its computation throws, so the gaze
tick resets the consecutive looking-away frame count to 0 and emits
nothing. -/
theorem c10_gaze_fail_safe :
    (∀ face, headAngleDataBad face = true → calculateHeadAngle face = 0)
    ∧ (∀ st face t, headAngleDataBad face = true →
        (handleSingleFaceDetection st face t).1.isCurrentlyLookingAway = false
        ∧ (handleSingleFaceDetection st face t).2 = [])
    ∧ (∀ landmarks, gazeDataBad landmarks = true →
        (analyzeGazeDirection landmarks).lookingAtScreen = true)
    ∧ (∀ gs landmarks t, gazeDataBad landmarks = true →
        (gazeTick gs landmarks t).1.consecutiveLookingAwayFrames = 0
        ∧ (gazeTick gs landmarks t).2 = []) := by
  have hHead : ∀ face, headAngleDataBad face = true → calculateHeadAngle face = 0 := by
    rintro ⟨lnd⟩ h
    cases lnd with
    | none => rfl
    | some landmarks =>
      simp only [headAngleDataBad, Bool.or_eq_true, decide_eq_true_eq] at h
      simp only [calculateHeadAngle]
      by_cases hlen : landmarks.length < 468
      · rw [if_pos hlen]
      · rw [if_neg hlen,
          headAngleTryBlock_eq_none landmarks (by simp only [Bool.or_eq_true]; tauto)]
        rfl
  have hGaze : ∀ landmarks, gazeDataBad landmarks = true →
      (analyzeGazeDirection landmarks).lookingAtScreen = true := by
    intro landmarks h
    rw [analyzeGazeDirection, gazeTryBlock_eq_none landmarks h]
    rfl
  refine ⟨hHead, fun st face t h => ?_, hGaze, fun gs landmarks t h => ?_⟩
  · simp only [handleSingleFaceDetection, hHead face h]
    rw [if_neg (by norm_num [headAngleThreshold])]
    exact ⟨by simp [hideFocusWarning_la, resetLookingAwayTimer_la], rfl⟩
  · simp only [gazeTick, hGaze landmarks h, Bool.not_true, Bool.false_eq_true, if_false]
    exact ⟨by trivial, by trivial⟩

/-- Witness for `c10_gaze_fail_safe`: a face without landmarks yields head
angle 0 and no looking-away state; an empty landmark list yields
`lookingAtScreen = true` and a gaze tick that clears a running count of
10 frames. -/
theorem c10_gaze_fail_safe_witness :
    calculateHeadAngle ⟨none⟩ = 0
    ∧ (handleSingleFaceDetection initFocusState ⟨none⟩ 0).1.isCurrentlyLookingAway = false
    ∧ (analyzeGazeDirection []).lookingAtScreen = true
    ∧ (gazeTick ⟨10, none⟩ [] 0).1.consecutiveLookingAwayFrames = 0 := by
  have h := c10_gaze_fail_safe
  exact ⟨h.1 ⟨none⟩ (by decide), (h.2.1 initFocusState ⟨none⟩ 0 (by decide)).1,
    h.2.2.1 [] (by decide), (h.2.2.2 ⟨10, none⟩ [] 0 (by decide)).1⟩
